import Mathlib

/-!
Shallow embedding of the Hand-Gesture repository (gesture_control.py and
snake_game.py) together with proofs about the claims of its specification.

Landmark coordinates, confidences and thresholds are modelled as exact
rationals standing for the Python floats.  Comparisons of Euclidean norms
against thresholds are embedded as comparisons of squared norms against
squared thresholds, which is equivalent because every threshold in the
source is nonnegative.  Random choices (fruit cells, power-up cells, the
power-up spawn roll) are passed in explicitly as an `Rng` tape; the
unbounded retry loops of `spawn_fruit` / `spawn_power_up` and the
`IndexError` on an empty snake are modelled by an `Option` result, `none`
standing for divergence or an uncaught exception.  Particle velocity
components are `random.uniform` floats consumed only by the renderer; the
embedded `Particle` keeps the deterministic spawn position, lifetime and
colour and omits the velocities.
-/

namespace HandGesture

/-! ## gesture_control.py -/

/-- One processed camera frame as delivered by the mediapipe detector:
`hands.process` either raises, detects no hand, or detects one hand
(`max_num_hands=1`) with wrist / thumb-tip / index-fingertip landmarks and
a classification confidence score. -/
inductive HandsResult where
  | throws
  | noHand
  | hand (wrist thumb index : ℚ × ℚ) (confidence : ℚ)
deriving DecidableEq, Repr

/-- Overlays drawn onto the annotated copy of the input frame. -/
inductive Overlay where
  | landmarks
  | boostText
  | boostCircle
  | directionText (d : String)
  | confidenceBar (c : ℚ)
  | centerBox
  | statusText (t : String)
  | errorText
deriving DecidableEq, Repr

/-- The annotated frame: the identity of the input frame it copies plus the
overlays drawn on it, in drawing order. -/
structure Frame where
  base : Nat
  overlays : List Overlay
deriving DecidableEq, Repr

def max_history : Nat := 6
def gesture_threshold : ℚ := 35 / 1000
def max_cooldown : Nat := 4
def max_no_hand_frames : Nat := 12
def pinch_threshold : ℚ := 5 / 100

/-- The mutable per-interpreter gesture state of `GestureControl`.  The two
counters are natural numbers: in the source they start at 0, are only ever
incremented or reset, and the cooldown is decremented only while positive,
so they never go negative. -/
structure GestureState where
  previous_position : Option (ℚ × ℚ)
  position_history : List (ℚ × ℚ)
  current_direction : Option String
  gesture_cooldown : Nat
  no_hand_frames : Nat
  last_confidence : ℚ
deriving DecidableEq, Repr

/-- Gesture state right after `GestureControl.__init__`. -/
def init_gesture_state : GestureState :=
  { previous_position := none
    position_history := []
    current_direction := none
    gesture_cooldown := 0
    no_hand_frames := 0
    last_confidence := 0 }

/-- `reset_gesture_state` (gesture_control.py lines 173-178).
`last_confidence` is deliberately left untouched, matching the source. -/
def reset_gesture_state (g : GestureState) : GestureState :=
  { g with previous_position := none
           position_history := []
           current_direction := none
           gesture_cooldown := 0
           no_hand_frames := 0 }

/-- Dynamic sensitivity (lines 65-70): the movement threshold shrinks as
`last_confidence` rises. -/
def dynamic_threshold (conf : ℚ) : ℚ :=
  if 8 / 10 < conf then 2 / 100
  else if 5 / 10 < conf then 3 / 100
  else 5 / 100

/-- Squared Euclidean norm of a 2-vector; `norm v > t` with `t ≥ 0` is
embedded as `t * t < norm_sq v`. -/
def norm_sq (v : ℚ × ℚ) : ℚ := v.1 * v.1 + v.2 * v.2

/-- Componentwise arithmetic mean of a list of positions
(`np.mean(self.position_history, axis=0)`). -/
def mean2 (ps : List (ℚ × ℚ)) : ℚ × ℚ :=
  ((ps.map Prod.fst).sum / (ps.length : ℚ), (ps.map Prod.snd).sum / (ps.length : ℚ))

/-- The bounded history update (lines 87-89): append the current wrist
position, then pop the oldest sample once the window exceeds its
capacity. -/
def history_push (h : List (ℚ × ℚ)) (wrist : ℚ × ℚ) : List (ℚ × ℚ) :=
  let h0 := h ++ [wrist]
  if max_history < h0.length then h0.tail else h0

/-- The direction-decision block (lines 92-103): evaluated only when a
previous smoothed position exists and the cooldown is not positive; the
dominant axis of the movement vector picks the direction, and a direction
differing from the current one is accepted, resetting the cooldown. -/
def decide_direction (g : GestureState) (smoothed : ℚ × ℚ) (thresh : ℚ) : GestureState :=
  match g.previous_position with
  | some prev =>
      if g.gesture_cooldown ≤ 0 then
        let mv := (smoothed.1 - prev.1, smoothed.2 - prev.2)
        if thresh * thresh < norm_sq mv then
          let d := if |mv.2| < |mv.1|
                   then (if 0 < mv.1 then "RIGHT" else "LEFT")
                   else (if 0 < mv.2 then "DOWN" else "UP")
          if some d ≠ g.current_direction then
            { g with current_direction := some d, gesture_cooldown := max_cooldown }
          else g
        else g
      else g
  | none => g

/-- The body of the hand-present branch (lines 72-118), applied to a state
whose `last_confidence` has already been updated: reset the no-hand
counter, append the wrist position to the bounded history, smooth, run the
direction decision, detect the pinch, and store the smoothed position as
the new previous position.  Returns the new state and `is_pinching`. -/
def hand_step (g : GestureState) (wrist thumb index : ℚ × ℚ) : GestureState × Bool :=
  let thresh := dynamic_threshold g.last_confidence
  let g := { g with no_hand_frames := 0 }
  let hist := history_push g.position_history wrist
  let g := { g with position_history := hist }
  let smoothed := mean2 hist
  let g := decide_direction g smoothed thresh
  let pinch := decide (norm_sq (thumb.1 - index.1, thumb.2 - index.2)
                        < pinch_threshold * pinch_threshold)
  ({ g with previous_position := some smoothed }, pinch)

/-- The no-hand branch (lines 120-123): count the frame and reset all
gesture state once the counter exceeds `max_no_hand_frames`. -/
def no_hand_step (g : GestureState) : GestureState :=
  let g := { g with no_hand_frames := g.no_hand_frames + 1 }
  if max_no_hand_frames < g.no_hand_frames then reset_gesture_state g else g

/-- End-of-frame cooldown decrement (lines 125-126). -/
def cooldown_tick (g : GestureState) : GestureState :=
  if 0 < g.gesture_cooldown then { g with gesture_cooldown := g.gesture_cooldown - 1 }
  else g

/-- Direction display overlay (lines 129-131); Python truthiness makes the
empty string draw nothing. -/
def direction_overlay (g : GestureState) : List Overlay :=
  match g.current_direction with
  | some d => if d = "" then [] else [Overlay.directionText d]
  | none => []

/-- Overlays of a frame on which no hand was detected. -/
def no_hand_overlays (g : GestureState) : List Overlay :=
  direction_overlay g ++
    [Overlay.confidenceBar g.last_confidence, Overlay.centerBox,
     Overlay.statusText "No Hand"]

/-- Overlays of a frame on which a hand was detected. -/
def hand_overlays (g : GestureState) (pinch : Bool) : List Overlay :=
  [Overlay.landmarks] ++
    (if pinch then [Overlay.boostText, Overlay.boostCircle] else []) ++
    direction_overlay g ++
    [Overlay.confidenceBar g.last_confidence, Overlay.centerBox,
     Overlay.statusText "Hand Detected"]

/-- `GestureControl.detect_gestures` (lines 40-148).  `frame` identifies the
input frame; the returned triple is `(direction, is_pinching, annotated)`,
where `direction` is the stored `current_direction` read after the frame
was processed (line 148).  When `hands.process` raises, the except-branch
(lines 143-148) draws the error overlay and the already-initialised
`is_pinching = False` is returned with the untouched state. -/
def detect_gestures (g : GestureState) (i : HandsResult) (frame : Nat) :
    GestureState × Option String × Bool × Frame :=
  match i with
  | .throws =>
      (g, g.current_direction, false, ⟨frame, [Overlay.errorText]⟩)
  | .noHand =>
      let g1 := cooldown_tick (no_hand_step { g with last_confidence := 0 })
      (g1, g1.current_direction, false, ⟨frame, no_hand_overlays g1⟩)
  | .hand wrist thumb index conf =>
      let hp := hand_step { g with last_confidence := conf } wrist thumb index
      let g2 := cooldown_tick hp.1
      (g2, g2.current_direction, hp.2, ⟨frame, hand_overlays g2 hp.2⟩)

/-- The state component of one `detect_gestures` call. -/
def gstep (g : GestureState) (i : HandsResult) : GestureState :=
  (detect_gestures g i 0).1

/-- Iterated processing of frames on which no hand is detected. -/
def run_no_hand (g : GestureState) : Nat → GestureState
  | 0 => g
  | n + 1 => run_no_hand (gstep g .noHand) n

/-- A `detect_gestures` call accepted a direction change: the stored
direction after the call differs from the one before it and is not the
`none` produced by the loss-of-tracking reset. -/
def accepted_change (g : GestureState) (i : HandsResult) : Prop :=
  (gstep g i).current_direction ≠ g.current_direction ∧
    (gstep g i).current_direction ≠ none

/-- The loss-of-tracking reset fires on this call: the frame has no hand
and the incremented counter exceeds the threshold. -/
def reset_fires (g : GestureState) (i : HandsResult) : Prop :=
  i = HandsResult.noHand ∧ max_no_hand_frames < g.no_hand_frames + 1

/-! ## snake_game.py -/

/-- The `Direction` enum (snake_game.py lines 10-14). -/
inductive Direction where
  | UP | DOWN | LEFT | RIGHT
deriving DecidableEq, Repr

/-- The unit vector carried by each enum member. -/
def Direction.value : Direction → Int × Int
  | .UP => (0, -1)
  | .DOWN => (0, 1)
  | .LEFT => (-1, 0)
  | .RIGHT => (1, 0)

/-- The `opposite` dictionary of `change_direction` (lines 187-192). -/
def Direction.opposite : Direction → Direction
  | .UP => .DOWN
  | .DOWN => .UP
  | .LEFT => .RIGHT
  | .RIGHT => .LEFT

/-- The `mapping` dictionary of `change_direction` (lines 183-184);
`none` models a string outside the mapping. -/
def direction_of_string (n : String) : Option Direction :=
  if n = "UP" then some .UP
  else if n = "DOWN" then some .DOWN
  else if n = "LEFT" then some .LEFT
  else if n = "RIGHT" then some .RIGHT
  else none

/-- The string name of a direction, as used by the gesture module. -/
def direction_name : Direction → String
  | .UP => "UP"
  | .DOWN => "DOWN"
  | .LEFT => "LEFT"
  | .RIGHT => "RIGHT"

/-- A minimal JSON value, covering what `json.load` can hand to
`load_high_score`; booleans and non-integral floats are not modelled. -/
inductive Json where
  | num (n : Int)
  | str (s : String)
  | arr (xs : List Json)
  | obj (fields : List (String × Json))
  | null

/-- The persisted `high_score.json` source: absent, present but rejected by
`json.load`, or present with a parsed JSON document. -/
inductive StoredFile where
  | missing
  | corrupt
  | stored (j : Json)

/-- Python `int(...)` applied to a JSON value; `none` models the raised
`TypeError` / `ValueError` that the caller catches. -/
def py_int_of_json : Json → Option Int
  | .num n => some n
  | .str s => s.toInt?
  | _ => none

/-- `SnakeGame.load_high_score` (lines 72-80): a missing file, a file
`json.load` rejects, a non-dict document, a missing key or a value `int()`
rejects all yield 0; the broad `except` makes the function total. -/
def load_high_score : StoredFile → Int
  | .missing => 0
  | .corrupt => 0
  | .stored j =>
      match j with
      | .obj fields =>
          match fields.lookup "high_score" with
          | some v => (py_int_of_json v).getD 0
          | none => 0
      | _ => 0

/-- `SnakeGame.save_high_score` (lines 82-87), returning the written file:
`json.dump({'high_score': int(self.high_score)}, f)`. -/
def save_high_score (hs : Int) : StoredFile :=
  .stored (.obj [("high_score", .num hs)])

/-- A visual particle (dict literals of `add_particle_effect` and
`_add_transition_trail`).  The random float velocity components, consumed
only when rendering, are omitted. -/
structure Particle where
  x : Int
  y : Int
  life : Int
  max_life : Int
  color : Nat × Nat × Nat
deriving DecidableEq, Repr

/-- An active power-up (dict literal of `spawn_power_up`). -/
structure PowerUp where
  pos : Int × Int
  ptype : String
  lifespan : Int
deriving DecidableEq, Repr

def RED : Nat × Nat × Nat := (255, 0, 0)
def ORANGE : Nat × Nat × Nat := (255, 165, 0)
def YELLOW : Nat × Nat × Nat := (255, 255, 0)
def TRAIL_COLOR : Nat × Nat × Nat := (0, 200, 255)

/-- The mutable state of `SnakeGame` (drawing-only attributes such as
fonts, colors and the pygame surface are omitted; the persisted score file
is carried as `score_file` so that `save_high_score` is observable). -/
structure GameState where
  width : Int
  height : Int
  grid_size : Int
  grid_width : Int
  grid_height : Int
  high_score : Int
  score_file : StoredFile
  particles : List Particle
  transition_particles : List Particle
  power_ups : List PowerUp
  last_power_up_score : Int
  paused : Bool
  wrap_around : Bool
  wrap_transition_frames : Int
  snake : List (Int × Int)
  direction : Direction
  next_direction : Direction
  score : Int
  game_over : Bool
  speed_boost : Bool
  base_speed : Int
  boost_speed : Int
  fruit : Int × Int

/-- The random inputs one `update()` tick can consume: the stream of cells
`random.randint` proposes for the fruit, the outcome of the
`random.random() < self.power_up_spawn_chance` roll, and the stream of
cells proposed for a power-up. -/
structure Rng where
  fruit_cands : List (Int × Int)
  power_up_roll : Bool
  power_up_cands : List (Int × Int)

/-- The 12-particle burst of `add_particle_effect` (lines 133-146). -/
def particle_burst (s : GameState) (x y : Int) (color : Nat × Nat × Nat) : List Particle :=
  List.replicate 12
    { x := x * s.grid_size + s.grid_size / 2
      y := y * s.grid_size + s.grid_size / 2
      life := 40
      max_life := 40
      color := color }

def add_particle_effect (s : GameState) (x y : Int) (color : Nat × Nat × Nat) : GameState :=
  { s with particles := s.particles ++ particle_burst s x y color }

/-- The 8-particle trail of `_add_transition_trail` (lines 148-160). -/
def transition_trail_particles (s : GameState) (grid_x grid_y : Int) : List Particle :=
  List.replicate 8
    { x := grid_x * s.grid_size + s.grid_size / 2
      y := grid_y * s.grid_size + s.grid_size / 2
      life := s.wrap_transition_frames
      max_life := s.wrap_transition_frames
      color := TRAIL_COLOR }

def add_transition_trail (s : GameState) (grid_x grid_y : Int) : GameState :=
  { s with transition_particles :=
      s.transition_particles ++ transition_trail_particles s grid_x grid_y }

/-- `update_particles` (lines 165-172): age every particle by one tick and
drop the expired ones (the float position kinematics are render-only and
omitted). -/
def update_particles_list (ps : List Particle) : List Particle :=
  ps.filterMap fun p =>
    let p := { p with life := p.life - 1 }
    if p.life ≤ 0 then none else some p

/-- `update_power_ups` (lines 174-178). -/
def update_power_ups_list (ps : List PowerUp) : List PowerUp :=
  ps.filterMap fun p =>
    let p := { p with lifespan := p.lifespan - 1 }
    if p.lifespan ≤ 0 then none else some p

/-- `SnakeGame.change_direction` (lines 180-194). -/
def change_direction (s : GameState) (new_direction : String) : GameState :=
  if s.game_over || s.paused then s
  else
    match direction_of_string new_direction with
    | some new_dir =>
        if new_dir ≠ s.direction.opposite then { s with next_direction := new_dir }
        else s
    | none => s

/-- The retry loop of `spawn_power_up` (lines 122-128): the first proposed
cell lying neither on the snake nor on the fruit; `none` models the loop
never finding one. -/
def spawn_power_up (s : GameState) (cands : List (Int × Int)) : Option GameState :=
  match cands.find? (fun c => decide (c ∉ s.snake ∧ c ≠ s.fruit)) with
  | some p => some { s with power_ups := s.power_ups ++ [{ pos := p, ptype := "star", lifespan := 200 }] }
  | none => none

/-- `spawn_fruit` (lines 111-120): the first proposed cell lying neither on
the snake nor on any power-up becomes the fruit; afterwards a power-up may
spawn when at least 30 score points accumulated since the last one and the
10% roll succeeds. -/
def spawn_fruit (s : GameState) (rng : Rng) : Option GameState :=
  match rng.fruit_cands.find?
      (fun c => decide (c ∉ s.snake ∧ ∀ p ∈ s.power_ups, p.pos ≠ c)) with
  | none => none
  | some f =>
      let s := { s with fruit := f }
      if 30 ≤ s.score - s.last_power_up_score ∧ rng.power_up_roll = true then
        match spawn_power_up s rng.power_up_cands with
        | some s1 => some { s1 with last_power_up_score := s1.score }
        | none => none
      else some s

/-- Terminal-collision bookkeeping shared by the wall and self-collision
branches (lines 230-244): set `game_over` and persist the high score if
exceeded. -/
def end_game (s : GameState) : GameState :=
  let s := { s with game_over := true }
  if s.high_score < s.score then
    { s with high_score := s.score, score_file := save_high_score s.score }
  else s

/-- The wrap-around chain of `update` (lines 215-227): adjust an
out-of-range head to the opposite edge and add the transition trail at the
crossing point.  Returns the adjusted head and the state with the trail. -/
def wrap_move (s : GameState) (nh : Int × Int) : (Int × Int) × GameState :=
  if nh.1 < 0 then
    let nh := (s.grid_width - 1, nh.2)
    (nh, add_transition_trail s 0 nh.2)
  else if s.grid_width ≤ nh.1 then
    let nh := (0, nh.2)
    (nh, add_transition_trail s (s.grid_width - 1) nh.2)
  else if nh.2 < 0 then
    let nh := (nh.1, s.grid_height - 1)
    (nh, add_transition_trail s nh.1 0)
  else if s.grid_height ≤ nh.2 then
    let nh := (nh.1, 0)
    (nh, add_transition_trail s nh.1 (s.grid_height - 1))
  else (nh, s)

/-- The per-power-up collision loop of `update` (lines 257-262): every
power-up sitting on the new head awards 20 points, bursts particles and is
removed. -/
def power_up_hits (s : GameState) (nh : Int × Int) : GameState :=
  let hits := s.power_ups.filter (fun p => decide (p.pos = nh))
  { s with score := s.score + 20 * hits.length
           particles := s.particles ++ hits.flatMap (fun _ => particle_burst s nh.1 nh.2 YELLOW)
           power_ups := s.power_ups.filter (fun p => decide (p.pos ≠ nh)) }

/-- The tail of `update` from the self-collision check on (lines 238-265),
applied to the wrap-adjusted head. -/
def move_body (s : GameState) (nh : Int × Int) (rng : Rng) : Option GameState :=
  if nh ∈ s.snake then some (end_game s)
  else
    let s := { s with snake := nh :: s.snake }
    let step2 : Option GameState :=
      if nh = s.fruit then
        let s := { s with score := s.score + 10 }
        let s := add_particle_effect s nh.1 nh.2 RED
        spawn_fruit s rng
      else some { s with snake := s.snake.dropLast }
    match step2 with
    | none => none
    | some s1 =>
        let s2 := power_up_hits s1 nh
        some { s2 with particles := update_particles_list s2.particles
                       power_ups := update_power_ups_list s2.power_ups }

/-- `SnakeGame.update` (lines 206-265).  `none` models the `IndexError` on
an empty snake or the divergence of the fruit/power-up retry loops. -/
def update (s0 : GameState) (rng : Rng) : Option GameState :=
  if s0.game_over || s0.paused then some s0
  else
    let s := { s0 with direction := s0.next_direction }
    match s.snake with
    | [] => none
    | head :: _ =>
        let d := s.direction.value
        let new_head := (head.1 + d.1, head.2 + d.2)
        if s.wrap_around then
          let wm := wrap_move s new_head
          move_body wm.2 wm.1 rng
        else
          if new_head.1 < 0 ∨ s.grid_width ≤ new_head.1 ∨
              new_head.2 < 0 ∨ s.grid_height ≤ new_head.2 then
            some (end_game s)
          else
            move_body s new_head rng

/-! ## Helper lemmas: gesture interpreter -/

instance (g : GestureState) (i : HandsResult) : Decidable (accepted_change g i) :=
  inferInstanceAs (Decidable (_ ∧ _))

instance (g : GestureState) (i : HandsResult) : Decidable (reset_fires g i) :=
  inferInstanceAs (Decidable (_ ∧ _))

theorem gstep_throws (g : GestureState) : gstep g .throws = g := rfl

theorem gstep_noHand (g : GestureState) :
    gstep g .noHand = cooldown_tick (no_hand_step { g with last_confidence := 0 }) := rfl

theorem gstep_hand (g : GestureState) (w t ix : ℚ × ℚ) (c : ℚ) :
    gstep g (.hand w t ix c) =
      cooldown_tick
        { decide_direction
            { g with last_confidence := c, no_hand_frames := 0,
                     position_history := history_push g.position_history w }
            (mean2 (history_push g.position_history w)) (dynamic_threshold c) with
          previous_position := some (mean2 (history_push g.position_history w)) } := rfl

theorem cooldown_tick_current_direction (g : GestureState) :
    (cooldown_tick g).current_direction = g.current_direction := by
  unfold cooldown_tick; split <;> rfl

theorem cooldown_tick_no_hand_frames (g : GestureState) :
    (cooldown_tick g).no_hand_frames = g.no_hand_frames := by
  unfold cooldown_tick; split <;> rfl

theorem cooldown_tick_cooldown (g : GestureState) :
    (cooldown_tick g).gesture_cooldown = g.gesture_cooldown - 1 ∨
      (g.gesture_cooldown = 0 ∧ (cooldown_tick g).gesture_cooldown = 0) := by
  unfold cooldown_tick
  by_cases h : 0 < g.gesture_cooldown
  · rw [if_pos h]; exact Or.inl rfl
  · rw [if_neg h]; omega

theorem decide_direction_cases (g : GestureState) (sm : ℚ × ℚ) (th : ℚ) :
    decide_direction g sm th = g ∨
      (g.gesture_cooldown = 0 ∧ ∃ d, some d ≠ g.current_direction ∧
        decide_direction g sm th =
          { g with current_direction := some d, gesture_cooldown := max_cooldown }) := by
  unfold decide_direction
  cases g.previous_position with
  | none => exact Or.inl rfl
  | some prev =>
      dsimp only
      by_cases h1 : g.gesture_cooldown ≤ 0
      · rw [if_pos h1]
        by_cases h2 : th * th <
            norm_sq (sm.1 - prev.1, sm.2 - prev.2)
        · rw [if_pos h2]
          by_cases h3 : some (if |(sm.2 - prev.2 : ℚ)| < |(sm.1 - prev.1 : ℚ)|
                then (if 0 < sm.1 - prev.1 then "RIGHT" else "LEFT")
                else (if 0 < sm.2 - prev.2 then "DOWN" else "UP"))
              ≠ g.current_direction
          · rw [if_pos h3]
            exact Or.inr ⟨Nat.le_zero.mp h1, _, h3, rfl⟩
          · rw [if_neg h3]; exact Or.inl rfl
        · rw [if_neg h2]; exact Or.inl rfl
      · rw [if_neg h1]; exact Or.inl rfl

/-- On a frame with a hand, where the cooldown is positive at the start,
the decision block is skipped and the stored direction is untouched. -/
theorem gstep_hand_cooldown_pos (g : GestureState) (w t ix : ℚ × ℚ) (c : ℚ)
    (hc : 0 < g.gesture_cooldown) :
    (gstep g (.hand w t ix c)).current_direction = g.current_direction := by
  rw [gstep_hand, cooldown_tick_current_direction]
  rcases decide_direction_cases
      { g with last_confidence := c, no_hand_frames := 0,
               position_history := history_push g.position_history w }
      (mean2 (history_push g.position_history w)) (dynamic_threshold c) with h | ⟨h0, _, _, _⟩
  · rw [h]
  · exact absurd h0 (by simpa using Nat.pos_iff_ne_zero.mp hc)

theorem no_hand_step_cases (g : GestureState) :
    (max_no_hand_frames < g.no_hand_frames + 1 ∧
        no_hand_step g = reset_gesture_state { g with no_hand_frames := g.no_hand_frames + 1 }) ∨
      (g.no_hand_frames + 1 ≤ max_no_hand_frames ∧
        no_hand_step g = { g with no_hand_frames := g.no_hand_frames + 1 }) := by
  unfold no_hand_step
  by_cases h : max_no_hand_frames < g.no_hand_frames + 1
  · rw [if_pos h]; exact Or.inl ⟨h, rfl⟩
  · rw [if_neg h]; exact Or.inr ⟨by omega, rfl⟩

/-- A no-hand frame that trips the threshold leaves exactly the
freshly-initialised state (the frame itself also zeroed
`last_confidence`). -/
theorem gstep_noHand_reset (g : GestureState)
    (h : max_no_hand_frames < g.no_hand_frames + 1) :
    gstep g .noHand = init_gesture_state := by
  rw [gstep_noHand]
  rcases no_hand_step_cases { g with last_confidence := 0 } with ⟨_, he⟩ | ⟨hle, _⟩
  · rw [he]; rfl
  · exact absurd h (by simpa using hle)

/-- A no-hand frame below the threshold only counts the frame, zeroes the
confidence and ticks the cooldown. -/
theorem gstep_noHand_count (g : GestureState)
    (h : g.no_hand_frames + 1 ≤ max_no_hand_frames) :
    gstep g .noHand =
      cooldown_tick { g with last_confidence := 0,
                             no_hand_frames := g.no_hand_frames + 1 } := by
  rw [gstep_noHand]
  rcases no_hand_step_cases { g with last_confidence := 0 } with ⟨hlt, _⟩ | ⟨_, he⟩
  · exact absurd hlt (by simpa using h)
  · rw [he]

theorem gstep_current_direction_cases (g : GestureState) (i : HandsResult) :
    (gstep g i).current_direction = g.current_direction ∨
      accepted_change g i ∨ reset_fires g i := by
  cases i with
  | throws => exact Or.inl rfl
  | noHand =>
      by_cases h : max_no_hand_frames < g.no_hand_frames + 1
      · exact Or.inr (Or.inr ⟨rfl, h⟩)
      · rw [gstep_noHand_count g (by omega), cooldown_tick_current_direction]
        exact Or.inl rfl
  | hand w t ix c =>
      rcases decide_direction_cases
          { g with last_confidence := c, no_hand_frames := 0,
                   position_history := history_push g.position_history w }
          (mean2 (history_push g.position_history w)) (dynamic_threshold c) with
        h | ⟨h0, d, hne, he⟩
      · refine Or.inl ?_
        rw [gstep_hand, cooldown_tick_current_direction, h]
      · refine Or.inr (Or.inl ⟨?_, ?_⟩) <;>
          rw [gstep_hand, cooldown_tick_current_direction, he] <;> simp; simpa using hne

/-- An accepted change on a hand frame leaves cooldown 3 (the accepting
frame already decremented the fresh value 4) and no-hand counter 0. -/
theorem accepted_change_post (g : GestureState) (i : HandsResult)
    (hacc : accepted_change g i) :
    (gstep g i).gesture_cooldown = 3 ∧ (gstep g i).no_hand_frames = 0 := by
  obtain ⟨hnechg, hnenone⟩ := hacc
  cases i with
  | throws => exact absurd rfl hnechg
  | noHand =>
      by_cases h : max_no_hand_frames < g.no_hand_frames + 1
      · exact absurd (by rw [gstep_noHand_reset g h]; rfl) hnenone
      · exact absurd
          (by rw [gstep_noHand_count g (by omega), cooldown_tick_current_direction]) hnechg
  | hand w t ix c =>
      rcases decide_direction_cases
          { g with last_confidence := c, no_hand_frames := 0,
                   position_history := history_push g.position_history w }
          (mean2 (history_push g.position_history w)) (dynamic_threshold c) with
        h | ⟨h0, d, hne, he⟩
      · exact absurd (by rw [gstep_hand, cooldown_tick_current_direction, h]) hnechg
      · constructor
        · rw [gstep_hand, he]; rfl
        · rw [gstep_hand, he, cooldown_tick_no_hand_frames]

/-- One non-throwing frame, with no pending loss-of-tracking reset,
decrements a positive cooldown by exactly one and grows the no-hand
counter by at most one. -/
theorem gstep_cooldown_dec (g : GestureState) (i : HandsResult)
    (hi : i ≠ .throws) (hn : g.no_hand_frames + 1 ≤ max_no_hand_frames)
    (hc : 0 < g.gesture_cooldown) :
    (gstep g i).gesture_cooldown = g.gesture_cooldown - 1 ∧
      (gstep g i).no_hand_frames ≤ g.no_hand_frames + 1 := by
  cases i with
  | throws => exact absurd rfl hi
  | noHand =>
      rw [gstep_noHand_count g hn]
      unfold cooldown_tick
      rw [if_pos (by simpa using hc)]
      exact ⟨rfl, le_refl _⟩
  | hand w t ix c =>
      rcases decide_direction_cases
          { g with last_confidence := c, no_hand_frames := 0,
                   position_history := history_push g.position_history w }
          (mean2 (history_push g.position_history w)) (dynamic_threshold c) with
        h | ⟨h0, d, hne, he⟩
      · rw [gstep_hand, h]
        unfold cooldown_tick
        rw [if_pos (by simpa using hc)]
        exact ⟨rfl, by simp⟩
      · exact absurd h0 (by simpa using Nat.pos_iff_ne_zero.mp hc)

@[simp] theorem max_no_hand_frames_eq : max_no_hand_frames = 12 := rfl

theorem cooldown_tick_zero (g : GestureState) (h : g.gesture_cooldown = 0) :
    cooldown_tick g = g := by
  unfold cooldown_tick
  rw [if_neg (by omega)]

/-- No direction change is ever accepted on a frame whose cooldown is
positive at its start: the stored direction can only stay, or become
`none` through the loss-of-tracking reset. -/
theorem cooldown_blocks (g : GestureState) (i : HandsResult)
    (hc : 0 < g.gesture_cooldown) :
    (gstep g i).current_direction = g.current_direction ∨
      (gstep g i).current_direction = none := by
  cases i with
  | throws => exact Or.inl rfl
  | noHand =>
      by_cases h : max_no_hand_frames < g.no_hand_frames + 1
      · exact Or.inr (by rw [gstep_noHand_reset g h]; rfl)
      · exact Or.inl
          (by rw [gstep_noHand_count g (by omega), cooldown_tick_current_direction])
  | hand w t ix c => exact Or.inl (gstep_hand_cooldown_pos g w t ix c hc)

theorem run_no_hand_add (a b : Nat) (g : GestureState) :
    run_no_hand g (a + b) = run_no_hand (run_no_hand g a) b := by
  induction a generalizing g with
  | zero => simp [run_no_hand]
  | succ n ih =>
      have h : n + 1 + b = (n + b) + 1 := by omega
      rw [h]
      exact ih (gstep g .noHand)

theorem run_no_hand_init_le (k : Nat) (hk : k ≤ 12) :
    run_no_hand init_gesture_state k =
      { init_gesture_state with no_hand_frames := k } := by
  induction k with
  | zero => rfl
  | succ n ih =>
      rw [run_no_hand_add n 1, ih (by omega)]
      show gstep { init_gesture_state with no_hand_frames := n } .noHand = _
      rw [gstep_noHand_count _ (by simpa using hk), cooldown_tick_zero _ rfl]
      rfl

theorem run_no_hand_init_cycle :
    run_no_hand init_gesture_state 13 = init_gesture_state := by
  rw [show (13 : Nat) = 12 + 1 from rfl, run_no_hand_add,
    run_no_hand_init_le 12 (by omega)]
  show gstep { init_gesture_state with no_hand_frames := 12 } .noHand = _
  exact gstep_noHand_reset _ (by decide)

theorem run_no_hand_init_mod (q r : Nat) (hr : r ≤ 12) :
    run_no_hand init_gesture_state (13 * q + r) =
      { init_gesture_state with no_hand_frames := r } := by
  induction q with
  | zero => simpa using run_no_hand_init_le r hr
  | succ n ih =>
      have h : 13 * (n + 1) + r = 13 + (13 * n + r) := by ring
      rw [h, run_no_hand_add, run_no_hand_init_cycle, ih]

/-- Draining a partially counted state: after exactly the number of
no-hand frames that trips the threshold, the state is the initial one. -/
theorem run_no_hand_drain (m : Nat) :
    ∀ g : GestureState, g.no_hand_frames + (m + 1) = 13 →
      run_no_hand g (m + 1) = init_gesture_state := by
  induction m with
  | zero =>
      intro g hg
      show gstep g .noHand = _
      exact gstep_noHand_reset g (by simp; omega)
  | succ n ih =>
      intro g hg
      show run_no_hand (gstep g .noHand) (n + 1) = _
      refine ih _ ?_
      rw [gstep_noHand_count g (by simp; omega), cooldown_tick_no_hand_frames]
      show g.no_hand_frames + 1 + (n + 1) = 13
      omega

/-! ## Gesture-interpreter claims -/

/-- C6: on a frame where hand-landmark detection throws, `detect_gestures`
does not propagate the failure: the gesture state is untouched and the
call returns the last known direction, a boost flag of `false`, and an
annotated frame carrying the error overlay. -/
theorem detection_failure_contained (g : GestureState) (f : Nat) :
    (detect_gestures g .throws f).1 = g ∧
    (detect_gestures g .throws f).2.1 = g.current_direction ∧
    (detect_gestures g .throws f).2.2.1 = false ∧
    Overlay.errorText ∈ (detect_gestures g .throws f).2.2.2.overlays :=
  ⟨rfl, rfl, rfl, by simp [detect_gestures]⟩

/-- C1 (amended): a direction change is never accepted while the cooldown
counter is positive at the start of the frame; an accepted change sets the
counter to 4 but the accepting frame itself already performs the first
decrement, so the frame ends with counter 3 and the counter reaches
exactly zero after exactly 3 subsequent frames on which detection does not
throw, decrementing by exactly one per such frame. -/
theorem cooldown_debounce (g : GestureState) (i : HandsResult)
    (hacc : accepted_change g i) :
    ((gstep g i).gesture_cooldown = 3 ∧ (gstep g i).no_hand_frames = 0) ∧
    (∀ g' i', 0 < g'.gesture_cooldown →
      (gstep g' i').current_direction = g'.current_direction ∨
        (gstep g' i').current_direction = none) ∧
    (∀ i1 i2 i3, i1 ≠ HandsResult.throws → i2 ≠ HandsResult.throws →
      i3 ≠ HandsResult.throws →
      (gstep (gstep g i) i1).gesture_cooldown = 2 ∧
      (gstep (gstep (gstep g i) i1) i2).gesture_cooldown = 1 ∧
      (gstep (gstep (gstep (gstep g i) i1) i2) i3).gesture_cooldown = 0) := by
  obtain ⟨h3, h0⟩ := accepted_change_post g i hacc
  refine ⟨⟨h3, h0⟩, fun g' i' hc => cooldown_blocks g' i' hc, ?_⟩
  intro i1 i2 i3 hi1 hi2 hi3
  obtain ⟨d1, n1⟩ := gstep_cooldown_dec (gstep g i) i1 hi1 (by simp; omega) (by omega)
  obtain ⟨d2, n2⟩ :=
    gstep_cooldown_dec (gstep (gstep g i) i1) i2 hi2 (by simp; omega) (by omega)
  obtain ⟨d3, n3⟩ :=
    gstep_cooldown_dec (gstep (gstep (gstep g i) i1) i2) i3 hi3
      (by simp; omega) (by omega)
  exact ⟨by omega, by omega, by omega⟩

/-- A state poised to accept a direction change on the next frame. -/
def cex_state : GestureState :=
  { previous_position := some (0, 0)
    position_history := [(0, 0)]
    current_direction := none
    gesture_cooldown := 0
    no_hand_frames := 0
    last_confidence := 0 }

/-- A hand frame whose wrist moved far enough right to accept RIGHT. -/
def cex_hand : HandsResult := .hand (1, 0) (0, 0) (1, 1) 1

/-- Evaluation of the accepting frame: RIGHT is accepted and the frame
ends with cooldown 3 (4 minus the end-of-frame decrement). -/
theorem gstep_cex_eval :
    gstep cex_state cex_hand =
      { previous_position := some (1 / 2, 0)
        position_history := [(0, 0), (1, 0)]
        current_direction := some "RIGHT"
        gesture_cooldown := 3
        no_hand_frames := 0
        last_confidence := 1 } := by
  have e : gstep cex_state cex_hand = gstep cex_state (.hand (1, 0) (0, 0) (1, 1) 1) := rfl
  rw [e, gstep_hand]
  have hh : history_push cex_state.position_history (1, 0) =
      [((0 : ℚ), (0 : ℚ)), ((1 : ℚ), (0 : ℚ))] := by
    simp [history_push, cex_state, max_history]
  rw [hh]
  have hm : mean2 [((0 : ℚ), (0 : ℚ)), ((1 : ℚ), (0 : ℚ))] = (1 / 2, 0) := by
    norm_num [mean2]
  rw [hm]
  have ht : dynamic_threshold 1 = 2 / 100 := by norm_num [dynamic_threshold]
  rw [ht]
  have hdd : decide_direction
      { cex_state with last_confidence := 1, no_hand_frames := 0,
                       position_history := [((0 : ℚ), (0 : ℚ)), ((1 : ℚ), (0 : ℚ))] }
      ((1 : ℚ) / 2, (0 : ℚ)) (2 / 100) =
      { cex_state with last_confidence := 1, no_hand_frames := 0,
                       position_history := [((0 : ℚ), (0 : ℚ)), ((1 : ℚ), (0 : ℚ))],
                       current_direction := some "RIGHT",
                       gesture_cooldown := max_cooldown } := by
    unfold decide_direction
    norm_num [cex_state, norm_sq, abs_pos]
    exact fun h => absurd h (by simp)
  rw [hdd]
  unfold cooldown_tick
  norm_num [cex_state, max_cooldown]

/-- The accepting frame is an accepted direction change. -/
theorem accepted_change_cex : accepted_change cex_state cex_hand := by
  constructor
  · rw [gstep_cex_eval]
    simp [cex_state]
  · rw [gstep_cex_eval]
    simp

/-- C1 counterexample: a concrete accepted direction change after which the
cooldown counter is 3 (not 4) at the end of the accepting frame and is
already exactly zero after only 3 subsequent processed frames — so it does
not reach zero after exactly 4 subsequent frames, decrementing by one per
frame from 4, as the claim demands. -/
theorem cooldown_debounce_cex :
    accepted_change cex_state cex_hand ∧
    (gstep cex_state cex_hand).gesture_cooldown = 3 ∧
    (gstep (gstep (gstep (gstep cex_state cex_hand) .noHand) .noHand)
        .noHand).gesture_cooldown = 0 := by
  refine ⟨accepted_change_cex, ?_, ?_⟩
  · rw [gstep_cex_eval]
  · rw [gstep_cex_eval]
    decide

/-- Witness for C1's theorem at a concrete accepted change. -/
theorem cooldown_debounce_witness :
    ((gstep cex_state cex_hand).gesture_cooldown = 3 ∧
      (gstep cex_state cex_hand).no_hand_frames = 0) ∧
    ((gstep { cex_state with gesture_cooldown := 2 } .noHand).current_direction
        = ({ cex_state with gesture_cooldown := 2 } : GestureState).current_direction ∨
      (gstep { cex_state with gesture_cooldown := 2 } .noHand).current_direction = none) ∧
    ((gstep (gstep cex_state cex_hand) .noHand).gesture_cooldown = 2 ∧
      (gstep (gstep (gstep cex_state cex_hand) .noHand) .noHand).gesture_cooldown = 1 ∧
      (gstep (gstep (gstep (gstep cex_state cex_hand) .noHand) .noHand)
        .noHand).gesture_cooldown = 0) := by
  have h := cooldown_debounce cex_state cex_hand accepted_change_cex
  exact ⟨h.1, h.2.1 _ .noHand (by decide),
    h.2.2 .noHand .noHand .noHand (by decide) (by decide) (by decide)⟩

/-- C7 (amended): after any run of more than 12 consecutive no-hand frames
from a state whose no-hand counter is at most 12 (as every reachable state
is), the position history, previous position, current direction and
cooldown counter equal their freshly-initialised values, while the no-hand
frame count equals `(start + run length) mod 13` — it is 0, as the claim
demanded, only when 13 divides that sum, because the reset fires on the
13th uncounted frame and counting then restarts. -/
theorem loss_of_tracking_reset (g : GestureState) (L : Nat)
    (h0 : g.no_hand_frames ≤ 12) (hL : 12 < L) :
    run_no_hand g L =
      { init_gesture_state with
          no_hand_frames := (g.no_hand_frames + L) % 13 } := by
  obtain ⟨m, hm⟩ : ∃ m, g.no_hand_frames + (m + 1) = 13 :=
    ⟨12 - g.no_hand_frames, by omega⟩
  obtain ⟨rest, hrest⟩ : ∃ rest, L = (m + 1) + rest := ⟨L - (m + 1), by omega⟩
  subst hrest
  rw [run_no_hand_add, run_no_hand_drain m g hm]
  obtain ⟨q, r, hr, hqr⟩ : ∃ q r, r ≤ 12 ∧ rest = 13 * q + r :=
    ⟨rest / 13, rest % 13, by omega, by omega⟩
  subst hqr
  rw [run_no_hand_init_mod q r hr]
  have hx : (g.no_hand_frames + (m + 1 + (13 * q + r))) % 13 = r := by omega
  rw [hx]

set_option maxRecDepth 4000

/-- C7 counterexample: after a run of 14 (more than 12) consecutive
no-hand frames from the freshly-initialised state, the gesture state does
not equal its freshly-initialised value: the no-hand frame count is 1. -/
theorem loss_of_tracking_reset_cex :
    12 < 14 ∧
    run_no_hand init_gesture_state 14 ≠ init_gesture_state ∧
    (run_no_hand init_gesture_state 14).no_hand_frames = 1 := by
  decide

/-- Witness for C7's theorem at the freshly-initialised state, 13 frames. -/
theorem loss_of_tracking_reset_witness :
    run_no_hand init_gesture_state 13 =
      { init_gesture_state with
          no_hand_frames := (init_gesture_state.no_hand_frames + 13) % 13 } :=
  loss_of_tracking_reset init_gesture_state 13 (by decide) (by decide)

/-- C9: the direction returned by `detect_gestures` is the stored
direction after the frame was processed, and that stored direction only
moves by staying, by an accepted change to another direction, or by the
loss-of-tracking reset; in particular once a direction is held it never
becomes `none` on a frame where the reset does not fire. -/
theorem returned_direction_tracks_state (g : GestureState) (i : HandsResult) (f : Nat) :
    (detect_gestures g i f).2.1 = (detect_gestures g i f).1.current_direction ∧
    ((gstep g i).current_direction = g.current_direction ∨
      accepted_change g i ∨ reset_fires g i) ∧
    (reset_fires g i → (gstep g i).current_direction = none) ∧
    (g.current_direction ≠ none → ¬ reset_fires g i →
      (gstep g i).current_direction ≠ none) := by
  refine ⟨?_, gstep_current_direction_cases g i, ?_, ?_⟩
  · cases i <;> rfl
  · rintro ⟨rfl, hlt⟩
    rw [gstep_noHand_reset g hlt]
    rfl
  · intro hd hnr
    cases i with
    | throws => exact hd
    | noHand =>
        have hle : ¬ max_no_hand_frames < g.no_hand_frames + 1 := fun h => hnr ⟨rfl, h⟩
        rw [gstep_noHand_count g (by omega), cooldown_tick_current_direction]
        exact hd
    | hand w t ix c =>
        rcases decide_direction_cases
            { g with last_confidence := c, no_hand_frames := 0,
                     position_history := history_push g.position_history w }
            (mean2 (history_push g.position_history w)) (dynamic_threshold c) with
          h | ⟨hz, d, hne, he⟩
        · rw [gstep_hand, cooldown_tick_current_direction, h]
          exact hd
        · rw [gstep_hand, cooldown_tick_current_direction, he]
          simp

/-- A state already holding a direction. -/
def held_state : GestureState :=
  { init_gesture_state with current_direction := some "UP" }

/-! ## Helper lemmas: game engine -/

theorem end_game_spec (s : GameState) :
    (end_game s).game_over = true ∧ (end_game s).snake = s.snake ∧
    (end_game s).score = s.score ∧ (end_game s).fruit = s.fruit ∧
    (end_game s).power_ups = s.power_ups ∧
    (end_game s).high_score =
      (if s.high_score < s.score then s.score else s.high_score) ∧
    (end_game s).score_file =
      (if s.high_score < s.score then save_high_score s.score else s.score_file) := by
  unfold end_game
  by_cases h : s.high_score < s.score
  · simp only [if_pos h]
    simp
  · simp only [if_neg h]
    simp

theorem wrap_move_preserves (s : GameState) (nh : Int × Int) :
    (wrap_move s nh).2.snake = s.snake ∧ (wrap_move s nh).2.score = s.score ∧
    (wrap_move s nh).2.fruit = s.fruit ∧
    (wrap_move s nh).2.power_ups = s.power_ups ∧
    (wrap_move s nh).2.high_score = s.high_score ∧
    (wrap_move s nh).2.score_file = s.score_file ∧
    (wrap_move s nh).2.game_over = s.game_over := by
  unfold wrap_move
  split_ifs <;> exact ⟨rfl, rfl, rfl, rfl, rfl, rfl, rfl⟩

theorem wrap_move_in_bounds (s : GameState) (nh : Int × Int)
    (h1 : 0 ≤ nh.1) (h2 : nh.1 < s.grid_width)
    (h3 : 0 ≤ nh.2) (h4 : nh.2 < s.grid_height) :
    wrap_move s nh = (nh, s) := by
  unfold wrap_move
  rw [if_neg (by omega), if_neg (by omega), if_neg (by omega), if_neg (by omega)]

theorem move_body_collision (s : GameState) (nh : Int × Int) (rng : Rng)
    (hmem : nh ∈ s.snake) : move_body s nh rng = some (end_game s) := by
  unfold move_body
  rw [if_pos hmem]

theorem end_game_transition (s : GameState) :
    (end_game s).transition_particles = s.transition_particles := by
  unfold end_game
  dsimp only
  split <;> rfl

/-- `spawn_fruit` never touches the transition particles. -/
theorem spawn_fruit_transition (s : GameState) (rng : Rng) (s1 : GameState)
    (h : spawn_fruit s rng = some s1) :
    s1.transition_particles = s.transition_particles := by
  unfold spawn_fruit at h
  cases hf : rng.fruit_cands.find?
      (fun c => decide (c ∉ s.snake ∧ ∀ p ∈ s.power_ups, p.pos ≠ c)) with
  | none => rw [hf] at h; cases h
  | some f =>
      rw [hf] at h
      dsimp only at h
      split at h
      · cases hq : spawn_power_up { s with fruit := f } rng.power_up_cands with
        | none => rw [hq] at h; cases h
        | some s2 =>
            rw [hq] at h
            unfold spawn_power_up at hq
            cases hr : rng.power_up_cands.find?
                (fun c => decide (c ∉ ({ s with fruit := f } : GameState).snake ∧
                  c ≠ ({ s with fruit := f } : GameState).fruit)) with
            | none => rw [hr] at hq; cases hq
            | some q =>
                rw [hr] at hq
                cases hq
                cases h
                rfl
      · cases h
        rfl

/-- A successful `spawn_fruit` puts the fruit off the snake, leaves snake
and score alone, and only ever appends power-ups that are off the snake. -/
theorem spawn_fruit_spec (s : GameState) (rng : Rng) (s1 : GameState)
    (h : spawn_fruit s rng = some s1) :
    s1.fruit ∉ s.snake ∧ s1.snake = s.snake ∧ s1.score = s.score ∧
      ∀ p ∈ s1.power_ups, p ∈ s.power_ups ∨ p.pos ∉ s.snake := by
  unfold spawn_fruit at h
  cases hf : rng.fruit_cands.find?
      (fun c => decide (c ∉ s.snake ∧ ∀ p ∈ s.power_ups, p.pos ≠ c)) with
  | none => rw [hf] at h; cases h
  | some f =>
      rw [hf] at h
      have hpred := List.find?_some hf
      rw [decide_eq_true_eq] at hpred
      dsimp only at h
      split at h
      · cases hq : spawn_power_up { s with fruit := f } rng.power_up_cands with
        | none => rw [hq] at h; cases h
        | some s2 =>
            rw [hq] at h
            unfold spawn_power_up at hq
            cases hr : rng.power_up_cands.find?
                (fun c => decide (c ∉ ({ s with fruit := f } : GameState).snake ∧
                  c ≠ ({ s with fruit := f } : GameState).fruit)) with
            | none => rw [hr] at hq; cases hq
            | some q =>
                rw [hr] at hq
                have hqpred := List.find?_some hr
                rw [decide_eq_true_eq] at hqpred
                cases hq
                cases h
                refine ⟨hpred.1, rfl, rfl, ?_⟩
                intro p hp
                rcases List.mem_append.mp hp with hp | hp
                · exact Or.inl hp
                · rcases List.mem_singleton.mp hp with rfl
                  exact Or.inr hqpred.1
      · cases h
        exact ⟨hpred.1, rfl, rfl, fun p hp => Or.inl hp⟩

/-- Whenever `move_body` on a non-colliding head returns at all — whether
the head landed on the fruit (insert without pop, then respawn) or not
(insert and pop the tail) — the new head leads the snake and the
transition particles are untouched. -/
theorem move_body_head (s : GameState) (nh : Int × Int) (rng : Rng)
    (hmem : nh ∉ s.snake) (c : Int × Int) (cs : List (Int × Int))
    (hsnake : s.snake = c :: cs)
    (s1 : GameState) (h : move_body s nh rng = some s1) :
    s1.snake.head? = some nh ∧
      s1.transition_particles = s.transition_particles := by
  unfold move_body at h
  rw [if_neg hmem] at h
  dsimp only at h
  by_cases hfr : nh = s.fruit
  · rw [if_pos hfr] at h
    cases hsf : spawn_fruit
        (add_particle_effect
          { s with snake := nh :: s.snake, score := s.score + 10 } nh.1 nh.2 RED)
        rng with
    | none => rw [hsf] at h; cases h
    | some sf =>
        rw [hsf] at h
        dsimp only at h
        obtain ⟨-, hsn, -, -⟩ := spawn_fruit_spec _ rng sf hsf
        have htr := spawn_fruit_transition _ rng sf hsf
        cases h
        constructor
        · show (power_up_hits sf nh).snake.head? = some nh
          unfold power_up_hits
          dsimp only
          rw [hsn]
          rfl
        · show (power_up_hits sf nh).transition_particles = s.transition_particles
          unfold power_up_hits
          exact htr
  · rw [if_neg hfr] at h
    dsimp only at h
    cases h
    constructor
    · show ((nh :: s.snake).dropLast).head? = some nh
      rw [hsnake]
      simp
    · rfl

/-- Eating the fruit: score rises by exactly 10, the snake keeps its tail
and gains the new head, and the respawned fruit misses the whole new
snake. -/
theorem move_body_fruit (s : GameState) (nh : Int × Int) (rng : Rng)
    (hmem : nh ∉ s.snake) (hfr : nh = s.fruit)
    (hnopu : ∀ p ∈ s.power_ups, p.pos ≠ nh)
    (s1 : GameState) (h : move_body s nh rng = some s1) :
    s1.score = s.score + 10 ∧ s1.snake = nh :: s.snake ∧ s1.fruit ∉ s1.snake := by
  unfold move_body at h
  rw [if_neg hmem] at h
  dsimp only at h
  rw [if_pos hfr] at h
  cases hsf : spawn_fruit
      (add_particle_effect
        { s with snake := nh :: s.snake, score := s.score + 10 } nh.1 nh.2 RED)
      rng with
  | none => rw [hsf] at h; cases h
  | some sf =>
      rw [hsf] at h
      dsimp only at h
      obtain ⟨hns, hsn, hsc, hpu⟩ := spawn_fruit_spec _ rng sf hsf
      have hhits : sf.power_ups.filter (fun p => decide (p.pos = nh)) = [] := by
        rw [List.filter_eq_nil_iff]
        intro p hp
        rcases hpu p hp with hp0 | hp0
        · simpa using hnopu p hp0
        · simp only [decide_eq_true_eq]
          intro hq
          exact hp0 (by rw [hq]; exact List.mem_cons_self nh s.snake)
      cases h
      refine ⟨?_, ?_, ?_⟩
      · show (power_up_hits sf nh).score = s.score + 10
        unfold power_up_hits
        rw [hhits]
        simpa using hsc
      · show (power_up_hits sf nh).snake = nh :: s.snake
        unfold power_up_hits
        exact hsn
      · show (power_up_hits sf nh).fruit ∉ (power_up_hits sf nh).snake
        unfold power_up_hits
        dsimp only
        rw [hsn]
        exact hns

/-- Reduction of one unfrozen `update` tick to its branch structure. -/
theorem update_eq (s : GameState) (rng : Rng) (hd : Int × Int)
    (rest : List (Int × Int))
    (hgo : s.game_over = false) (hp : s.paused = false)
    (hsnake : s.snake = hd :: rest) :
    update s rng =
      (let s1 : GameState := { s with direction := s.next_direction }
       let nh : Int × Int :=
         (hd.1 + s.next_direction.value.1, hd.2 + s.next_direction.value.2)
       if s.wrap_around then
         let wm := wrap_move s1 nh
         move_body wm.2 wm.1 rng
       else
         if nh.1 < 0 ∨ s.grid_width ≤ nh.1 ∨ nh.2 < 0 ∨ s.grid_height ≤ nh.2 then
           some (end_game s1)
         else move_body s1 nh rng) := by
  unfold update
  rw [hgo, hp]
  rw [if_neg (by simp)]
  have hs : ({ s with direction := s.next_direction } : GameState).snake
      = hd :: rest := hsnake
  rw [hs]

/-! ## Game-engine claims -/

/-- C2 (amended): with wrap mode enabled, an unfrozen tick that moves the
head off the left edge (head at `x = 0`, committed direction LEFT)
re-enters it at `x = grid_width - 1` with `y` unchanged and appends the
transition trail at the wrap point `(0, y)`, for every random tape on
which the tick returns (the fruit-respawn retry loop is the only way it
does not).  If the wrapped cell is already occupied by the snake, the
tick is instead a self-collision: `game_over` is set and the snake is
unchanged, though the trail is still emitted.  With wrap disabled the same
tick sets `game_over`. -/
theorem wrap_left_edge (s : GameState) (rng : Rng) (y : Int)
    (rest : List (Int × Int))
    (hgo : s.game_over = false) (hp : s.paused = false)
    (hsnake : s.snake = (0, y) :: rest)
    (hdir : s.next_direction = Direction.LEFT) :
    (s.wrap_around = true →
      (s.grid_width - 1, y) ∉ s.snake →
      ∀ s1, update s rng = some s1 →
        s1.snake.head? = some (s.grid_width - 1, y) ∧
        s1.transition_particles =
          s.transition_particles ++ transition_trail_particles s 0 y) ∧
    (s.wrap_around = true →
      (s.grid_width - 1, y) ∈ s.snake →
      ∃ s1, update s rng = some s1 ∧ s1.game_over = true ∧
        s1.snake = s.snake ∧
        s1.transition_particles =
          s.transition_particles ++ transition_trail_particles s 0 y) ∧
    (s.wrap_around = false →
      ∃ s1, update s rng = some s1 ∧ s1.game_over = true) := by
  rw [update_eq s rng (0, y) rest hgo hp hsnake]
  have hv : s.next_direction.value = (-1, 0) := by rw [hdir]; rfl
  dsimp only
  rw [hv]
  norm_num
  have hwm : wrap_move { s with direction := s.next_direction } (-1, y) =
      ((s.grid_width - 1, y),
        add_transition_trail { s with direction := s.next_direction } 0 y) := by
    unfold wrap_move
    rw [if_pos (by norm_num)]
  refine ⟨?_, ?_, ?_⟩
  · intro hw hnm s1 h1
    rw [if_pos hw, hwm] at h1
    exact move_body_head
      (add_transition_trail { s with direction := s.next_direction } 0 y)
      (s.grid_width - 1, y) rng hnm (0, y) rest hsnake s1 h1
  · intro hw hmem
    rw [if_pos hw, hwm]
    rw [move_body_collision
      (add_transition_trail { s with direction := s.next_direction } 0 y)
      (s.grid_width - 1, y) rng hmem]
    obtain ⟨e1, e2, -, -, -, -, -⟩ := end_game_spec
      (add_transition_trail { s with direction := s.next_direction } 0 y)
    refine ⟨_, rfl, e1, ?_, ?_⟩
    · rw [e2]
      rfl
    · rw [end_game_transition]
      rfl
  · intro hw
    rw [if_neg (by simp [hw])]
    exact ⟨_, rfl, (end_game_spec _).1⟩

/-- C3: an unfrozen tick whose next head cell is the (in-bounds) fruit
cell, in a state where the fruit lies on neither the snake nor a power-up,
raises the score by exactly 10, grows the snake by exactly one segment,
and respawns the fruit off the whole resulting snake. -/
theorem fruit_consumption (s : GameState) (rng : Rng) (hd : Int × Int)
    (rest : List (Int × Int))
    (hgo : s.game_over = false) (hp : s.paused = false)
    (hsnake : s.snake = hd :: rest)
    (hnh : (hd.1 + s.next_direction.value.1, hd.2 + s.next_direction.value.2)
      = s.fruit)
    (hb1 : 0 ≤ s.fruit.1) (hb2 : s.fruit.1 < s.grid_width)
    (hb3 : 0 ≤ s.fruit.2) (hb4 : s.fruit.2 < s.grid_height)
    (hmem : s.fruit ∉ s.snake)
    (hnopu : ∀ p ∈ s.power_ups, p.pos ≠ s.fruit)
    (s1 : GameState) (h : update s rng = some s1) :
    s1.score = s.score + 10 ∧
    s1.snake.length = s.snake.length + 1 ∧
    s1.fruit ∉ s1.snake := by
  rw [update_eq s rng hd rest hgo hp hsnake] at h
  dsimp only at h
  have hnh1 : hd.1 + s.next_direction.value.1 = s.fruit.1 := congrArg Prod.fst hnh
  have hnh2 : hd.2 + s.next_direction.value.2 = s.fruit.2 := congrArg Prod.snd hnh
  have hmain : move_body { s with direction := s.next_direction } s.fruit rng
      = some s1 := by
    by_cases hw : s.wrap_around = true
    · rw [if_pos hw, hnh] at h
      rw [wrap_move_in_bounds ({ s with direction := s.next_direction })
        s.fruit hb1 hb2 hb3 hb4] at h
      exact h
    · rw [if_neg hw, if_neg (by omega), hnh] at h
      exact h
  obtain ⟨hsc, hsn, hfr⟩ :=
    move_body_fruit { s with direction := s.next_direction } s.fruit rng
      hmem rfl hnopu s1 hmain
  refine ⟨hsc, ?_, hfr⟩
  rw [hsn]
  simp

/-- C5: an unfrozen tick whose (wrap-resolved, in-bounds in Classic mode)
new head cell is already on the snake sets `game_over`, updates the
persisted high score exactly when the score exceeds it, and leaves snake,
score, fruit and power-ups unchanged — no growth, no scoring, no further
effects that tick. -/
theorem self_collision_freeze (s : GameState) (rng : Rng) (hd : Int × Int)
    (rest : List (Int × Int))
    (hgo : s.game_over = false) (hp : s.paused = false)
    (hsnake : s.snake = hd :: rest) :
    (s.wrap_around = true →
      (wrap_move { s with direction := s.next_direction }
        (hd.1 + s.next_direction.value.1, hd.2 + s.next_direction.value.2)).1
          ∈ s.snake →
      ∃ s1, update s rng = some s1 ∧ s1.game_over = true ∧
        s1.snake = s.snake ∧ s1.score = s.score ∧ s1.fruit = s.fruit ∧
        s1.power_ups = s.power_ups ∧
        s1.high_score = (if s.high_score < s.score then s.score else s.high_score) ∧
        s1.score_file =
          (if s.high_score < s.score then save_high_score s.score else s.score_file)) ∧
    (s.wrap_around = false →
      (0 ≤ hd.1 + s.next_direction.value.1 ∧
        hd.1 + s.next_direction.value.1 < s.grid_width ∧
        0 ≤ hd.2 + s.next_direction.value.2 ∧
        hd.2 + s.next_direction.value.2 < s.grid_height) →
      (hd.1 + s.next_direction.value.1, hd.2 + s.next_direction.value.2) ∈ s.snake →
      ∃ s1, update s rng = some s1 ∧ s1.game_over = true ∧
        s1.snake = s.snake ∧ s1.score = s.score ∧ s1.fruit = s.fruit ∧
        s1.power_ups = s.power_ups ∧
        s1.high_score = (if s.high_score < s.score then s.score else s.high_score) ∧
        s1.score_file =
          (if s.high_score < s.score then save_high_score s.score else s.score_file)) := by
  rw [update_eq s rng hd rest hgo hp hsnake]
  dsimp only
  constructor
  · intro hw hmem
    rw [if_pos hw]
    set s1b : GameState := { s with direction := s.next_direction } with hs1b
    set nh : Int × Int :=
      (hd.1 + s.next_direction.value.1, hd.2 + s.next_direction.value.2) with hnh
    obtain ⟨w1, w2, w3, w4, w5, w6, w7⟩ := wrap_move_preserves s1b nh
    have hmem2 : (wrap_move s1b nh).1 ∈ (wrap_move s1b nh).2.snake := by
      rw [w1]; exact hmem
    rw [move_body_collision _ _ rng hmem2]
    obtain ⟨e1, e2, e3, e4, e5, e6, e7⟩ := end_game_spec (wrap_move s1b nh).2
    exact ⟨_, rfl, e1, by rw [e2, w1], by rw [e3, w2], by rw [e4, w3],
      by rw [e5, w4], by rw [e6, w2, w5], by rw [e7, w2, w5, w6]⟩
  · intro hw hb hmem
    rw [if_neg (by simp [hw]), if_neg (by omega)]
    rw [move_body_collision ({ s with direction := s.next_direction })
      (hd.1 + s.next_direction.value.1, hd.2 + s.next_direction.value.2) rng hmem]
    obtain ⟨e1, e2, e3, e4, e5, e6, e7⟩ :=
      end_game_spec ({ s with direction := s.next_direction } : GameState)
    exact ⟨_, rfl, e1, e2, e3, e4, e5, e6, e7⟩

/-- C4: in an unfrozen state, requesting the exact opposite of the current
active direction leaves the queued `next_direction` unchanged. -/
theorem reversal_rejected (s : GameState)
    (hgo : s.game_over = false) (hp : s.paused = false) :
    (change_direction s (direction_name s.direction.opposite)).next_direction
      = s.next_direction := by
  unfold change_direction
  rw [hgo, hp]
  cases hdir : s.direction <;> rfl

/-- C10: in a paused or game-over state, `change_direction` returns with
the whole game state — in particular the queued `next_direction` —
unchanged, whatever its argument. -/
theorem frozen_change_direction (s : GameState) (arg : String)
    (h : s.paused = true ∨ s.game_over = true) :
    change_direction s arg = s := by
  unfold change_direction
  rcases h with h | h <;> simp [h]

/-- C8: saving any non-negative high score and loading it back (as a
fresh process would) returns the same integer, and loading a missing or
corrupt persisted source returns 0 (`load_high_score` is total, so it
cannot raise). -/
theorem high_score_round_trip (n : Int) (hn : 0 ≤ n) :
    load_high_score (save_high_score n) = n ∧
    load_high_score StoredFile.missing = 0 ∧
    load_high_score StoredFile.corrupt = 0 :=
  ⟨rfl, rfl, rfl⟩

/-- A concrete mid-game state: 20-by-30 grid, wrap on, head at the left
edge moving LEFT. -/
def game_base : GameState :=
  { width := 400, height := 600, grid_size := 20, grid_width := 20
    grid_height := 30, high_score := 0, score_file := .missing
    particles := [], transition_particles := [], power_ups := []
    last_power_up_score := 0, paused := false, wrap_around := true
    wrap_transition_frames := 3, snake := [(0, 5), (1, 5), (2, 5)]
    direction := .LEFT, next_direction := .LEFT, score := 0
    game_over := false, speed_boost := false, base_speed := 6
    boost_speed := 12, fruit := (10, 10) }

def rng_base : Rng := ⟨[(7, 7)], false, []⟩

/-- A wrap-mode state whose snake also occupies the wrap target
`(grid_width - 1, 5)`. -/
def game_blocked : GameState :=
  { game_base with snake := [(0, 5), (0, 6), (19, 6), (19, 5)] }

/-- Witness for C2's theorem: the free-cell wrap branch at `game_base`,
the occupied-cell branch at `game_blocked`, and the classic branch at
`game_base` with wrap disabled. -/
theorem wrap_left_edge_witness :
    (∃ s1, update game_base rng_base = some s1 ∧
      s1.snake.head? = some (game_base.grid_width - 1, 5) ∧
      s1.transition_particles =
        game_base.transition_particles ++ transition_trail_particles game_base 0 5) ∧
    (∃ s1, update game_blocked rng_base = some s1 ∧ s1.game_over = true ∧
      s1.snake = game_blocked.snake ∧
      s1.transition_particles =
        game_blocked.transition_particles ++
          transition_trail_particles game_blocked 0 5) ∧
    (∃ s1, update { game_base with wrap_around := false } rng_base = some s1 ∧
      s1.game_over = true) := by
  refine ⟨?_, ?_, ?_⟩
  · obtain ⟨s1, hs1⟩ : ∃ s1, update game_base rng_base = some s1 := ⟨_, rfl⟩
    exact ⟨s1, hs1,
      (wrap_left_edge game_base rng_base 5 [(1, 5), (2, 5)] rfl rfl rfl rfl).1
        rfl (by decide) s1 hs1⟩
  · exact (wrap_left_edge game_blocked rng_base 5 [(0, 6), (19, 6), (19, 5)]
      rfl rfl rfl rfl).2.1 rfl (by decide)
  · exact (wrap_left_edge { game_base with wrap_around := false } rng_base 5
      [(1, 5), (2, 5)] rfl rfl rfl rfl).2.2 rfl

/-- C2 counterexample: with wrap mode enabled and the head moving off the
left edge, a snake already occupying `(grid_width - 1, y)` makes the tick
a self-collision: the head is not placed at `x = grid_width - 1` (the
snake is unchanged and the game ends), so the claim does not hold for
every wrap-mode state. -/
theorem wrap_left_edge_cex :
    game_blocked.wrap_around = true ∧
    game_blocked.snake.head? = some (0, 5) ∧
    game_blocked.next_direction = Direction.LEFT ∧
    ∃ s1, update game_blocked rng_base = some s1 ∧
      s1.snake.head? ≠ some (game_blocked.grid_width - 1, 5) ∧
      s1.game_over = true :=
  ⟨rfl, rfl, rfl, _, rfl, by decide, by decide⟩

/-- A concrete state about to eat the fruit at `(10, 10)`. -/
def game_fruit : GameState :=
  { game_base with snake := [(9, 10), (8, 10), (7, 10)]
                   direction := .RIGHT, next_direction := .RIGHT }

/-- Witness for C3's theorem at `game_fruit`. -/
theorem fruit_consumption_witness :
    ∃ s1, update game_fruit rng_base = some s1 ∧
      s1.score = game_fruit.score + 10 ∧
      s1.snake.length = game_fruit.snake.length + 1 ∧
      s1.fruit ∉ s1.snake := by
  obtain ⟨s1, hs1⟩ : ∃ s1, update game_fruit rng_base = some s1 := ⟨_, rfl⟩
  exact ⟨s1, hs1,
    fruit_consumption game_fruit rng_base (9, 10) [(8, 10), (7, 10)] rfl rfl rfl
      (by decide) (by decide) (by decide) (by decide) (by decide) (by decide)
      (by decide) s1 hs1⟩

/-- A concrete state about to run into its own body, in both modes. -/
def game_self : GameState :=
  { game_base with snake := [(5, 5), (4, 5), (4, 6), (5, 6)]
                   direction := .DOWN, next_direction := .DOWN, score := 50 }

/-- Witness for C5's theorem: the self-collision at `game_self` with wrap
on, and at the same state with wrap off. -/
theorem self_collision_freeze_witness :
    (∃ s1, update game_self rng_base = some s1 ∧ s1.game_over = true ∧
      s1.snake = game_self.snake ∧ s1.score = game_self.score ∧
      s1.fruit = game_self.fruit ∧ s1.power_ups = game_self.power_ups ∧
      s1.high_score = (if game_self.high_score < game_self.score then game_self.score
        else game_self.high_score) ∧
      s1.score_file = (if game_self.high_score < game_self.score then
        save_high_score game_self.score else game_self.score_file)) ∧
    (∃ s1, update { game_self with wrap_around := false } rng_base = some s1 ∧
      s1.game_over = true ∧
      s1.snake = game_self.snake ∧ s1.score = game_self.score ∧
      s1.fruit = game_self.fruit ∧ s1.power_ups = game_self.power_ups ∧
      s1.high_score = (if game_self.high_score < game_self.score then game_self.score
        else game_self.high_score) ∧
      s1.score_file = (if game_self.high_score < game_self.score then
        save_high_score game_self.score else game_self.score_file)) :=
  ⟨(self_collision_freeze game_self rng_base (5, 5) [(4, 5), (4, 6), (5, 6)]
      rfl rfl rfl).1 rfl (by decide),
   (self_collision_freeze { game_self with wrap_around := false } rng_base (5, 5)
      [(4, 5), (4, 6), (5, 6)] rfl rfl rfl).2 rfl (by decide) (by decide)⟩

/-- Witness for C4's theorem at `game_base` (moving LEFT, requesting
RIGHT). -/
theorem reversal_rejected_witness :
    (change_direction game_base
      (direction_name game_base.direction.opposite)).next_direction
      = game_base.next_direction :=
  reversal_rejected game_base rfl rfl

/-- Witness for C10's theorem at a paused and at a game-over state. -/
theorem frozen_change_direction_witness :
    change_direction { game_base with paused := true } "UP"
        = { game_base with paused := true } ∧
    change_direction { game_base with game_over := true } "DOWN"
        = { game_base with game_over := true } :=
  ⟨frozen_change_direction { game_base with paused := true } "UP" (Or.inl rfl),
   frozen_change_direction { game_base with game_over := true } "DOWN" (Or.inr rfl)⟩

/-- Witness for C8's theorem at the score 42. -/
theorem high_score_round_trip_witness :
    load_high_score (save_high_score 42) = 42 ∧
    load_high_score StoredFile.missing = 0 ∧
    load_high_score StoredFile.corrupt = 0 :=
  high_score_round_trip 42 (by decide)

/-- Witness for C9's theorem: a held direction survives a no-hand frame
below the reset threshold, and the reset produces `none`. -/
theorem returned_direction_witness :
    (gstep held_state .noHand).current_direction ≠ none ∧
    (gstep { held_state with no_hand_frames := 12 } .noHand).current_direction = none :=
  ⟨(returned_direction_tracks_state held_state .noHand 0).2.2.2 (by decide) (by decide),
   (returned_direction_tracks_state { held_state with no_hand_frames := 12 }
      .noHand 0).2.2.1 (by decide)⟩

end HandGesture
